import Mathlib

/-!
Shallow embedding of the dual-track recommendation store (`useMovieStore`)
of the MovieSir front-end, together with the response-mapping helper
`convertV2MovieToMovie` from `src/frontend/src/api/movieApi.ts`.

The store is embedded from the first (feature-complete) `useMovieStore`
definition in the packed sources
(`src/frontend/src/app/routes/OnboardingProtectedRoute.tsx`, the section
starting at the zustand `create` call around line 102): that is the variant
the specification describes (it clears `excludedIds` on every filter
mutation, classifies load failures into four kinds, and re-inserts a
replacement movie at the removed movie's index).  Each asynchronous store
action is embedded as a pure function from the pre-state and the network
outcome (the server's response, or a thrown transport error) to the
post-state, paired with the request the action sent, if any.  This matches
the single-threaded, one-round-trip execution model of the code.
-/

namespace MovieSir

/-! ## String constants appearing in the source -/

def errNetworkCode : String := "ERR_NETWORK"

/-- Default time filter value `"00:00"`. -/
def defaultTime : String := "00:00"

/-- Track A default label (`"맞춤 추천"`, "personalized recommendation"). -/
def trackADefaultLabel : String := "맞춤 추천"

/-- Track B default label (`"다양성 추천"`, "diversity recommendation"). -/
def trackBDefaultLabel : String := "다양성 추천"

/-- Error message for `error.code === 'ERR_NETWORK'`. -/
def msgNetwork : String := "서버에 연결할 수 없습니다. 잠시 후 다시 시도해주세요."

/-- Error message for HTTP status 401. -/
def msgUnauthorized : String := "로그인이 필요합니다. 다시 로그인해주세요."

/-- Error message for HTTP status 500. -/
def msgServerFault : String := "서버 오류가 발생했습니다. 잠시 후 다시 시도해주세요."

/-- Generic load-failure message. -/
def msgGeneric : String := "영화 추천을 가져오는 중 오류가 발생했습니다"

/-- TMDB poster base url used by `convertV2MovieToMovie`. -/
def posterBaseUrl : String := "https://image.tmdb.org/t/p/w500"

/-- Track name `"a"` sent in re-recommendation requests. -/
def trackNameA : String := "a"

/-- Track name `"b"` sent in re-recommendation requests. -/
def trackNameB : String := "b"

/-! ## JavaScript primitives used by the store -/

/-- Characters of a string with surrounding whitespace removed, used to
model the implicit trimming JS `Number` performs. -/
def trimChars (cs : List Char) : List Char :=
  ((cs.dropWhile (fun c => c.isWhitespace)).reverse.dropWhile
    (fun c => c.isWhitespace)).reverse

/-- Decimal digit-run parser: the accumulated value, or `none` as soon as
a non-digit character appears. -/
def parseDigitsAux : List Char → Nat → Option Nat
  | [], acc => some acc
  | c :: cs, acc =>
    if c.isDigit then parseDigitsAux cs (acc * 10 + (c.toNat - 48)) else none

/-- Model of JavaScript `Number(s)` restricted to the integral decimal
strings this code path feeds it ("HH" / "MM" components, an optional
leading minus): `none` models `NaN`; the empty (or all-whitespace) string
evaluates to `0` in JS. -/
def jsNumber (s : String) : Option Int :=
  match trimChars s.toList with
  | [] => some 0
  | c :: rest =>
    if c = '-' then
      match rest with
      | [] => none
      | _ => (parseDigitsAux rest 0).map (fun n => -(n : Int))
    else (parseDigitsAux (c :: rest) 0).map (fun n => (n : Int))

/-- Split a character list at every occurrence of `sep`, collecting the
(possibly empty) components; the accumulator holds the current component
reversed. -/
def splitCharsAux (sep : Char) : List Char → List Char → List String
  | [], acc => [String.mk acc.reverse]
  | c :: cs, acc =>
    if c = sep then String.mk acc.reverse :: splitCharsAux sep cs []
    else splitCharsAux sep cs (c :: acc)

/-- Model of JS `s.split(sep)` for a one-character separator: always at
least one (possibly empty) component. -/
def jsSplit (sep : Char) (s : String) : List String :=
  splitCharsAux sep s.toList []

/-- Model of the source idiom
`const [hours, minutes] = time.split(':').map(Number);
 hours * 60 + minutes`: splitting on every colon, destructuring the first
two components (a missing second component is `undefined`, whose `Number`
is `NaN`), and combining.  `none` models the `NaN` results. -/
def parseTimeToMinutes (time : String) : Option Int :=
  match jsSplit ':' time with
  | h :: m :: _ =>
    match jsNumber h, jsNumber m with
    | some hours, some minutes => some (hours * 60 + minutes)
    | _, _ => none
  | _ => none

/-- Model of `Array.prototype.findIndex`, with the absent case (`-1` in JS)
represented as `none`.  The store's guard
`if (!movieToRemove || movieIndex === -1) return;` collapses to the `none`
case, since an array element found at a valid index is a (truthy) object. -/
def findIndex {α : Type} (p : α → Bool) : List α → Option Nat
  | [] => none
  | a :: l => if p a then some 0 else (findIndex p l).map (· + 1)

/-- Model of JavaScript `arr.splice(i, 0, x)` as a pure insertion: inserts
`x` at index `i`, appending at the end when `i` exceeds the length (JS
clamps the splice start to the array length). -/
def spliceInsert {α : Type} : Nat → α → List α → List α
  | _, x, [] => [x]
  | 0, x, a :: l => x :: a :: l
  | n + 1, x, a :: l => a :: spliceInsert n x l

/-- Model of `new Date(s).getFullYear()` for the ISO `YYYY-MM-DD` release
dates this code feeds it: the leading year component; `none` models the
`NaN` produced by an invalid date. -/
def jsGetFullYear (s : String) : Option Int :=
  match jsSplit '-' s with
  | y :: _ => (parseDigitsAux y.toList 0).map (fun n => (n : Int))
  | [] => none

/-! ## Server-side data shapes (V2 recommendation API) -/

/-- A movie record as returned by the V2 recommendation endpoints
(`RecommendedMovieV2` in `movieApi.type`). -/
structure RecommendedMovieV2 where
  tmdb_id : Int
  title : String
  genres : List String
  release_date : Option String
  vote_average : Rat
  poster_path : Option String
  overview : String
  runtime : Int
  deriving DecidableEq, Repr

/-- One track of a V2 recommendation response. -/
structure TrackV2 where
  movies : List RecommendedMovieV2
  total_runtime : Int
  label : String
  deriving DecidableEq, Repr

/-- Response of `POST /api/v2/recommend` (`RecommendResponseV2`). -/
structure RecommendResponseV2 where
  track_a : TrackV2
  track_b : TrackV2
  deriving DecidableEq, Repr

/-- Request body of `POST /api/v2/recommend/single` (`ReRecommendRequest`).
`target_runtime` is `Option Int` because the arithmetic producing it can be
`NaN` when the time filter string is malformed. -/
structure ReRecommendRequest where
  target_runtime : Option Int
  excluded_ids : List Int
  track : String
  genres : List String
  exclude_adult : Bool
  deriving DecidableEq, Repr

/-- Response of `POST /api/v2/recommend/single` (`ReRecommendResponse`). -/
structure ReRecommendResponse where
  success : Bool
  movie : Option RecommendedMovieV2
  message : Option String
  deriving DecidableEq, Repr

/-! ## Front-end view model -/

/-- Front-end `Movie` view model, restricted to the fields produced by
`convertV2MovieToMovie`. -/
structure Movie where
  id : Int
  tmdb_id : Int
  title : String
  genres : List String
  year : Option Int
  rating : Rat
  poster : String
  description : String
  runtime : Option Int
  popular : Bool
  watched : Bool
  deriving DecidableEq, Repr

/-- Embedding of `convertV2MovieToMovie` (`movieApi.ts`, lines 142–154):
converts a V2 server movie to the front-end `Movie` shape.  Note that the
view-model `id` is the server `tmdb_id`.  The JS conditional expressions
`v2Movie.release_date ? ... : undefined` and
`v2Movie.poster_path ? ... : ''` treat the empty string as falsy. -/
def convertV2MovieToMovie (v2Movie : RecommendedMovieV2) : Movie :=
  { id := v2Movie.tmdb_id
    tmdb_id := v2Movie.tmdb_id
    title := v2Movie.title
    genres := v2Movie.genres
    year :=
      match v2Movie.release_date with
      | some d => if d = "" then none else jsGetFullYear d
      | none => none
    rating := v2Movie.vote_average
    poster :=
      match v2Movie.poster_path with
      | some p => if p = "" then "" else posterBaseUrl ++ p
      | none => ""
    description := v2Movie.overview
    runtime := some v2Movie.runtime
    popular := false
    watched := false }

/-! ## Store state -/

/-- The `filters` slice of the store. -/
structure Filters where
  time : String
  genres : List String
  excludeAdult : Bool
  deriving DecidableEq, Repr

/-- The full `MovieState` held by `useMovieStore`. -/
structure MovieState where
  filters : Filters
  userId : Option Int
  trackAMovies : List Movie
  trackATotalRuntime : Int
  trackALabel : String
  trackBMovies : List Movie
  trackBTotalRuntime : Int
  trackBLabel : String
  excludedIds : List Int
  recommendedMovies : List Movie
  popularMovies : List Movie
  detailMovieId : Option Int
  isLoading : Bool
  error : Option String
  deriving DecidableEq, Repr

/-- The store's initial state. -/
def initialState : MovieState :=
  { filters := { time := defaultTime, genres := [], excludeAdult := false }
    userId := none
    trackAMovies := []
    trackATotalRuntime := 0
    trackALabel := trackADefaultLabel
    trackBMovies := []
    trackBTotalRuntime := 0
    trackBLabel := trackBDefaultLabel
    excludedIds := []
    recommendedMovies := []
    popularMovies := []
    detailMovieId := none
    isLoading := false
    error := none }

/-! ## Synchronous actions -/

/-- Embedding of `setUserId`. -/
def setUserId (st : MovieState) (userId : Option Int) : MovieState :=
  { st with userId := userId }

/-- Embedding of `setTime`: sets `filters.time` and clears `excludedIds`. -/
def setTime (st : MovieState) (time : String) : MovieState :=
  { st with
    filters := { st.filters with time := time }
    excludedIds := [] }

/-- Embedding of `toggleGenre`: removes the genre if present
(`genres.includes(genre)`), appends it otherwise, and clears
`excludedIds`. -/
def toggleGenre (st : MovieState) (genre : String) : MovieState :=
  { st with
    filters :=
      { st.filters with
        genres :=
          if st.filters.genres.contains genre then
            st.filters.genres.filter (fun g => g != genre)
          else
            st.filters.genres ++ [genre] }
    excludedIds := [] }

/-- Embedding of `toggleExcludeAdult`: flips the flag and clears
`excludedIds`. -/
def toggleExcludeAdult (st : MovieState) : MovieState :=
  { st with
    filters := { st.filters with excludeAdult := !st.filters.excludeAdult }
    excludedIds := [] }

/-- Embedding of `setDetailMovieId`. -/
def setDetailMovieId (st : MovieState) (movieId : Option Int) : MovieState :=
  { st with detailMovieId := movieId }

/-- Embedding of `resetFilters`: restores filters, tracks, labels, runtimes,
`excludedIds` and the legacy alias arrays to their defaults.  It does not
mention `isLoading`, `error`, `userId` or `detailMovieId`, so zustand's
shallow merge leaves those fields untouched. -/
def resetFilters (st : MovieState) : MovieState :=
  { st with
    filters := { time := defaultTime, genres := [], excludeAdult := false }
    trackAMovies := []
    trackATotalRuntime := 0
    trackALabel := trackADefaultLabel
    trackBMovies := []
    trackBTotalRuntime := 0
    trackBLabel := trackBDefaultLabel
    excludedIds := []
    recommendedMovies := []
    popularMovies := [] }

/-! ## Asynchronous actions

Each asynchronous action is embedded as a pure function of the pre-state
and of the network outcome observed by that invocation. -/

/-- The shape of the axios error object examined by `loadRecommended`'s
catch block: `error.code` and `error.response?.status`. -/
structure JsError where
  code : Option String
  status : Option Nat
  deriving DecidableEq, Repr

/-- Embedding of the error-message classification in `loadRecommended`'s
catch block: `ERR_NETWORK` first, then HTTP 401, then HTTP 500, otherwise
the generic message. -/
def classifyLoadError (e : JsError) : String :=
  if e.code = some errNetworkCode then msgNetwork
  else if e.status = some 401 then msgUnauthorized
  else if e.status = some 500 then msgServerFault
  else msgGeneric

/-- Embedding of `loadRecommended`: first sets `isLoading`/clears `error`,
then applies the outcome of `postRecommendationsV2`.  On success it
replaces both tracks (mapped through `convertV2MovieToMovie`), stores the
server-reported per-track `total_runtime` and labels, replaces
`excludedIds` with the `tmdb_id`s of all returned movies, and mirrors the
tracks into the legacy alias arrays.  On failure it stores the classified
message and empties both tracks and both aliases (but touches neither
`excludedIds` nor the runtime totals). -/
def loadRecommended (st : MovieState)
    (result : Except JsError RecommendResponseV2) : MovieState :=
  let st := { st with isLoading := true, error := none }
  match result with
  | .ok r =>
    let trackAMovies := r.track_a.movies.map convertV2MovieToMovie
    let trackBMovies := r.track_b.movies.map convertV2MovieToMovie
    let allMovieIds :=
      r.track_a.movies.map (fun m => m.tmdb_id) ++
        r.track_b.movies.map (fun m => m.tmdb_id)
    { st with
      trackAMovies := trackAMovies
      trackATotalRuntime := r.track_a.total_runtime
      trackALabel := r.track_a.label
      trackBMovies := trackBMovies
      trackBTotalRuntime := r.track_b.total_runtime
      trackBLabel := r.track_b.label
      excludedIds := allMovieIds
      recommendedMovies := trackAMovies
      popularMovies := trackBMovies
      isLoading := false
      error := none }
  | .error e =>
    { st with
      error := some (classifyLoadError e)
      isLoading := false
      trackAMovies := []
      trackBMovies := []
      recommendedMovies := []
      popularMovies := [] }

/-- Outcome of a `postReRecommendSingle` round trip: either the promise
rejected (transport failure) or the server responded. -/
inductive ReRecOutcome where
  | threw : ReRecOutcome
  | responded : ReRecommendResponse → ReRecOutcome
  deriving DecidableEq, Repr

/-- The source idiom `(m.runtime || 0)` summed over a list of movies by
`reduce((sum, m) => sum + (m.runtime || 0), 0)`. -/
def movieRuntimeOrZero (m : Movie) : Int :=
  m.runtime.getD 0

/-- Runtime sum of a list of movies, as computed by the store's `reduce`. -/
def trackRuntimeSum (l : List Movie) : Int :=
  l.foldl (fun sum m => sum + movieRuntimeOrZero m) 0

/-- Embedding of `removeRecommendedMovie` (Track A re-recommendation).
Returns the post-state together with the request sent to
`postReRecommendSingle`, if any.  If `movieId` is not found the action
returns early with no state change and no request.  Otherwise it computes
the filtered track, the extended exclusion list and the target runtime,
sends the request, and only in the success-with-movie case commits a state
update: the filtered track with the converted replacement spliced in at
the removed movie's index, the alias array mirrored, the track runtime
recomputed as `remainingRuntime + (newMovie.runtime || 0)`, and the new
movie's id appended to the exclusion list.  In the failure and thrown
cases no `set` call happens, so the state is returned unchanged. -/
def removeRecommendedMovie (st : MovieState) (movieId : Int)
    (outcome : ReRecOutcome) : MovieState × Option ReRecommendRequest :=
  match findIndex (fun m => m.id == movieId) st.trackAMovies with
  | none => (st, none)
  | some movieIndex =>
    let newTrackAMovies := st.trackAMovies.filter (fun m => m.id != movieId)
    let newExcludedIds := st.excludedIds ++ [movieId]
    let userInputTime := parseTimeToMinutes st.filters.time
    let remainingRuntime := trackRuntimeSum newTrackAMovies
    let targetRuntime := userInputTime.map (fun t => t - remainingRuntime)
    let req : ReRecommendRequest :=
      { target_runtime := targetRuntime
        excluded_ids := newExcludedIds
        track := trackNameA
        genres := st.filters.genres
        exclude_adult := st.filters.excludeAdult }
    match outcome with
    | .threw => (st, some req)
    | .responded resp =>
      match resp.success, resp.movie with
      | true, some mv =>
        let newMovie := convertV2MovieToMovie mv
        let updatedMovies :=
          spliceInsert movieIndex newMovie
            (st.trackAMovies.filter (fun m => m.id != movieId))
        ({ st with
            trackAMovies := updatedMovies
            recommendedMovies := updatedMovies
            trackATotalRuntime := remainingRuntime + movieRuntimeOrZero newMovie
            excludedIds := newExcludedIds ++ [newMovie.id] }, some req)
      | _, _ => (st, some req)

/-- Embedding of `removePopularMovie` (Track B re-recommendation), the
exact mirror of `removeRecommendedMovie` on the B track and the
`popularMovies` alias, sending `track: "b"`. -/
def removePopularMovie (st : MovieState) (movieId : Int)
    (outcome : ReRecOutcome) : MovieState × Option ReRecommendRequest :=
  match findIndex (fun m => m.id == movieId) st.trackBMovies with
  | none => (st, none)
  | some movieIndex =>
    let newTrackBMovies := st.trackBMovies.filter (fun m => m.id != movieId)
    let newExcludedIds := st.excludedIds ++ [movieId]
    let userInputTime := parseTimeToMinutes st.filters.time
    let remainingRuntime := trackRuntimeSum newTrackBMovies
    let targetRuntime := userInputTime.map (fun t => t - remainingRuntime)
    let req : ReRecommendRequest :=
      { target_runtime := targetRuntime
        excluded_ids := newExcludedIds
        track := trackNameB
        genres := st.filters.genres
        exclude_adult := st.filters.excludeAdult }
    match outcome with
    | .threw => (st, some req)
    | .responded resp =>
      match resp.success, resp.movie with
      | true, some mv =>
        let newMovie := convertV2MovieToMovie mv
        let updatedMovies :=
          spliceInsert movieIndex newMovie
            (st.trackBMovies.filter (fun m => m.id != movieId))
        ({ st with
            trackBMovies := updatedMovies
            popularMovies := updatedMovies
            trackBTotalRuntime := remainingRuntime + movieRuntimeOrZero newMovie
            excludedIds := newExcludedIds ++ [newMovie.id] }, some req)
      | _, _ => (st, some req)

/-! ## Invariants referred to by the claims -/

/-- Each track's stored total runtime equals the runtime sum of its
current items. -/
def runtimeInvariant (st : MovieState) : Prop :=
  st.trackATotalRuntime = trackRuntimeSum st.trackAMovies ∧
    st.trackBTotalRuntime = trackRuntimeSum st.trackBMovies

/-- The legacy alias arrays mirror the tracks. -/
def aliasInvariant (st : MovieState) : Prop :=
  st.recommendedMovies = st.trackAMovies ∧ st.popularMovies = st.trackBMovies

/-! ## Concrete fixtures used by witnesses and counterexamples -/

/-- A minimal `Movie` with the given id (also `tmdb_id`) and runtime. -/
def mkTestMovie (i rt : Int) : Movie :=
  { id := i, tmdb_id := i, title := "", genres := [], year := none,
    rating := 0, poster := "", description := "", runtime := some rt,
    popular := false, watched := false }

/-- A minimal server movie with the given id and runtime. -/
def mkTestV2Movie (i rt : Int) : RecommendedMovieV2 :=
  { tmdb_id := i, title := "", genres := [], release_date := none,
    vote_average := 0, poster_path := none, overview := "", runtime := rt }

def movieX : Movie := mkTestMovie 1 90

def movieY : Movie := mkTestMovie 2 30

def movieZ : Movie := mkTestMovie 3 40

/-- The spec's worked scenario: Track A = `[X(90), Y(30)]`, a 150-minute
(`"02:30"`) time budget, consistent runtime totals, Track B = `[Z(40)]`. -/
def stateXY : MovieState :=
  { initialState with
    filters := { time := "02:30", genres := [], excludeAdult := false }
    trackAMovies := [movieX, movieY]
    trackATotalRuntime := 120
    trackBMovies := [movieZ]
    trackBTotalRuntime := 40
    excludedIds := [1, 2, 3]
    recommendedMovies := [movieX, movieY]
    popularMovies := [movieZ] }

/-- A `{success:false}` re-recommendation response. -/
def failResponse : ReRecommendResponse :=
  { success := false, movie := none, message := none }

/-- An outcome of `postReRecommendSingle` that carries no replacement: the
call threw, or the server answered without `success && movie`. -/
def failedReRec : ReRecOutcome → Prop
  | .threw => True
  | .responded resp => resp.success = false ∨ resp.movie = none

/-- A state carrying a visible error and a stuck loading flag, as left by
reading the store mid-failure. -/
def erroredState : MovieState :=
  { initialState with isLoading := true, error := some msgGeneric }

/-- A Track A state holding two distinct movie objects that share id 1:
nothing in `loadRecommended` deduplicates server responses, so such a
state is reachable when the server returns the same id twice. -/
def dupIdState : MovieState :=
  { initialState with
    filters := { time := "02:30", genres := [], excludeAdult := false }
    trackAMovies := [movieX, mkTestMovie 1 80]
    trackATotalRuntime := 170
    recommendedMovies := [movieX, mkTestMovie 1 80]
    excludedIds := [1] }

/-- A successful re-recommendation response carrying movie id 9 (55
minutes). -/
def successResponse9 : ReRecommendResponse :=
  { success := true, movie := some (mkTestV2Movie 9 55), message := none }

/-- A server response whose reported Track A total (999) disagrees with
the single returned movie's 90-minute runtime. -/
def inconsistentResponse : RecommendResponseV2 :=
  { track_a := { movies := [mkTestV2Movie 1 90], total_runtime := 999,
                 label := trackADefaultLabel }
    track_b := { movies := [], total_runtime := 0,
                 label := trackBDefaultLabel } }

end MovieSir

namespace MovieSir

/-! ## Helper lemmas about the embedded list primitives -/

theorem foldl_runtime_eq (l : List Movie) (n : Int) :
    l.foldl (fun sum m => sum + movieRuntimeOrZero m) n
      = n + (l.map movieRuntimeOrZero).sum := by
  induction l generalizing n with
  | nil => simp
  | cons a l ih => simp [List.foldl_cons, ih, add_assoc]

theorem trackRuntimeSum_eq_sum_map (l : List Movie) :
    trackRuntimeSum l = (l.map movieRuntimeOrZero).sum := by
  simpa [trackRuntimeSum] using foldl_runtime_eq l 0

theorem length_spliceInsert {α : Type} (i : Nat) (x : α) (l : List α) :
    (spliceInsert i x l).length = l.length + 1 := by
  induction l generalizing i with
  | nil => simp [spliceInsert]
  | cons a l ih =>
    cases i with
    | zero => simp [spliceInsert]
    | succ n => simp [spliceInsert, ih]

theorem map_spliceInsert {α β : Type} (f : α → β) (i : Nat) (x : α)
    (l : List α) :
    (spliceInsert i x l).map f = spliceInsert i (f x) (l.map f) := by
  induction l generalizing i with
  | nil => simp [spliceInsert]
  | cons a l ih =>
    cases i with
    | zero => simp [spliceInsert]
    | succ n => simp [spliceInsert, ih]

theorem sum_spliceInsert (i : Nat) (x : Int) (l : List Int) :
    (spliceInsert i x l).sum = x + l.sum := by
  induction l generalizing i with
  | nil => simp [spliceInsert]
  | cons a l ih =>
    cases i with
    | zero => simp [spliceInsert]
    | succ n => simp [spliceInsert, ih]; ring

theorem trackRuntimeSum_spliceInsert (i : Nat) (x : Movie) (l : List Movie) :
    trackRuntimeSum (spliceInsert i x l)
      = movieRuntimeOrZero x + trackRuntimeSum l := by
  simp [trackRuntimeSum_eq_sum_map, map_spliceInsert, sum_spliceInsert]

theorem spliceInsert_length_append {α : Type} (l₁ l₂ : List α) (x : α) :
    spliceInsert l₁.length x (l₁ ++ l₂) = l₁ ++ x :: l₂ := by
  induction l₁ with
  | nil => cases l₂ <;> simp [spliceInsert]
  | cons a l₁ ih => simp [spliceInsert, ih]

theorem get?_append_cons {α : Type} (l₁ l₂ : List α) (x : α) :
    (l₁ ++ x :: l₂).get? l₁.length = some x := by
  induction l₁ with
  | nil => simp
  | cons a l₁ ih => simpa using ih

theorem findIndex_eq_none_of {α : Type} (p : α → Bool) (l : List α)
    (h : ∀ a ∈ l, p a = false) : findIndex p l = none := by
  induction l with
  | nil => rfl
  | cons a l ih =>
    have ha : p a = false := h a (List.mem_cons_self a l)
    have hl : findIndex p l = none := ih fun b hb => h b (List.mem_cons_of_mem a hb)
    simp [findIndex, ha, hl]

theorem findIndex_append_cons {α : Type} (p : α → Bool) (l₁ l₂ : List α)
    (x : α) (h₁ : ∀ a ∈ l₁, p a = false) (hx : p x = true) :
    findIndex p (l₁ ++ x :: l₂) = some l₁.length := by
  induction l₁ with
  | nil => simp [findIndex, hx]
  | cons a l₁ ih =>
    have ha : p a = false := h₁ a (List.mem_cons_self a l₁)
    have ih2 := ih fun b hb => h₁ b (List.mem_cons_of_mem a hb)
    simp [findIndex, ha, ih2]

theorem filter_append_cons_eq {α : Type} (q : α → Bool) (l₁ l₂ : List α)
    (x : α) (h₁ : ∀ a ∈ l₁, q a = true) (h₂ : ∀ a ∈ l₂, q a = true)
    (hx : q x = false) : (l₁ ++ x :: l₂).filter q = l₁ ++ l₂ := by
  rw [List.filter_append, List.filter_cons]
  simp [hx, List.filter_eq_self.mpr h₁, List.filter_eq_self.mpr h₂]

theorem id_convertV2MovieToMovie (m : RecommendedMovieV2) :
    (convertV2MovieToMovie m).id = m.tmdb_id := rfl

end MovieSir

namespace MovieSir

/-! ## Claim theorems -/

/-- C9: for every state and every `movieId` not present in the named track,
`removeRecommendedMovie` / `removePopularMovie` returns early: the state is
completely unchanged and no network request is issued. -/
theorem removeAbsentMovieIsNoOp (st : MovieState) (movieId : Int)
    (outcome : ReRecOutcome) :
    ((∀ m ∈ st.trackAMovies, m.id ≠ movieId) →
      removeRecommendedMovie st movieId outcome = (st, none)) ∧
    ((∀ m ∈ st.trackBMovies, m.id ≠ movieId) →
      removePopularMovie st movieId outcome = (st, none)) := by
  constructor
  · intro h
    have hf : findIndex (fun m => m.id == movieId) st.trackAMovies = none :=
      findIndex_eq_none_of _ _ fun a ha => beq_eq_false_iff_ne.mpr (h a ha)
    simp [removeRecommendedMovie, hf]
  · intro h
    have hf : findIndex (fun m => m.id == movieId) st.trackBMovies = none :=
      findIndex_eq_none_of _ _ fun a ha => beq_eq_false_iff_ne.mpr (h a ha)
    simp [removePopularMovie, hf]

/-- Witness for C9: removing the absent id 5 from either track of the
fixture state changes nothing and sends nothing. -/
theorem removeAbsentMovieIsNoOp_witness :
    removeRecommendedMovie stateXY 5 ReRecOutcome.threw = (stateXY, none) ∧
    removePopularMovie stateXY 5 ReRecOutcome.threw = (stateXY, none) :=
  ⟨(removeAbsentMovieIsNoOp stateXY 5 ReRecOutcome.threw).1 (by decide),
   (removeAbsentMovieIsNoOp stateXY 5 ReRecOutcome.threw).2 (by decide)⟩

/-- C2: when `loadRecommended` fails, afterwards `isLoading` is false, the
stored error is the message classified from the failure kind (network
unreachable, then HTTP 401, then HTTP 500, otherwise generic), and both
tracks (and their legacy aliases) are emptied. -/
theorem loadFailureClearsTracksAndClassifiesError (st : MovieState)
    (e : JsError) :
    (loadRecommended st (.error e)).isLoading = false ∧
    (loadRecommended st (.error e)).error = some (classifyLoadError e) ∧
    (loadRecommended st (.error e)).trackAMovies = [] ∧
    (loadRecommended st (.error e)).trackBMovies = [] ∧
    (loadRecommended st (.error e)).recommendedMovies = [] ∧
    (loadRecommended st (.error e)).popularMovies = [] ∧
    (e.code = some errNetworkCode → classifyLoadError e = msgNetwork) ∧
    (e.code ≠ some errNetworkCode → e.status = some 401 →
      classifyLoadError e = msgUnauthorized) ∧
    (e.code ≠ some errNetworkCode → e.status ≠ some 401 →
      e.status = some 500 → classifyLoadError e = msgServerFault) ∧
    (e.code ≠ some errNetworkCode → e.status ≠ some 401 →
      e.status ≠ some 500 → classifyLoadError e = msgGeneric) := by
  refine ⟨rfl, rfl, rfl, rfl, rfl, rfl, ?_, ?_, ?_, ?_⟩
  · intro h1
    simp [classifyLoadError, h1]
  · intro h1 h2
    simp [classifyLoadError, h1, h2]
  · intro h1 h2 h3
    simp [classifyLoadError, h1, h2, h3]
  · intro h1 h2 h3
    simp [classifyLoadError, h1, h2, h3]

/-- Witness for C2: a concrete network failure (`ERR_NETWORK`) during load
yields the network message and empty tracks. -/
theorem loadFailureClearsTracks_witness :
    (loadRecommended stateXY
        (.error { code := some errNetworkCode, status := none })).error
      = some msgNetwork ∧
    (loadRecommended stateXY
        (.error { code := some errNetworkCode, status := none })).trackAMovies
      = [] ∧
    (loadRecommended stateXY
        (.error { code := some errNetworkCode, status := none })).isLoading
      = false := by
  have h := loadFailureClearsTracksAndClassifiesError stateXY
    { code := some errNetworkCode, status := none }
  refine ⟨?_, h.2.2.1, h.1⟩
  rw [h.2.1, h.2.2.2.2.2.2.1 rfl]

/-- C4: each filter mutation updates exactly its own field of the filter
selection (`setTime` the time, `toggleGenre` the genre set membership of
the toggled genre only, `toggleExcludeAdult` the flag) and leaves
`excludedIds` empty immediately afterwards. -/
theorem filterMutationsTouchOneFieldAndClearExclusions (st : MovieState)
    (t g g2 : String) :
    (setTime st t).filters.time = t ∧
    (setTime st t).filters.genres = st.filters.genres ∧
    (setTime st t).filters.excludeAdult = st.filters.excludeAdult ∧
    (setTime st t).excludedIds = [] ∧
    (toggleGenre st g).filters.time = st.filters.time ∧
    (toggleGenre st g).filters.excludeAdult = st.filters.excludeAdult ∧
    ((g ∈ (toggleGenre st g).filters.genres) ↔ g ∉ st.filters.genres) ∧
    (g2 ≠ g →
      ((g2 ∈ (toggleGenre st g).filters.genres) ↔ g2 ∈ st.filters.genres)) ∧
    (toggleGenre st g).excludedIds = [] ∧
    (toggleExcludeAdult st).filters.time = st.filters.time ∧
    (toggleExcludeAdult st).filters.genres = st.filters.genres ∧
    (toggleExcludeAdult st).filters.excludeAdult
      = (!st.filters.excludeAdult) ∧
    (toggleExcludeAdult st).excludedIds = [] := by
  refine ⟨rfl, rfl, rfl, rfl, ?_, ?_, ?_, ?_, rfl, rfl, rfl, rfl, rfl⟩
  · by_cases hc : st.filters.genres.contains g = true <;>
      simp [toggleGenre, hc]
  · by_cases hc : st.filters.genres.contains g = true <;>
      simp [toggleGenre, hc]
  · by_cases hg : g ∈ st.filters.genres
    · simp [toggleGenre, hg, List.mem_filter]
    · simp [toggleGenre, hg, List.mem_append]
  · intro hne
    by_cases hg : g ∈ st.filters.genres
    · simp [toggleGenre, hg, List.mem_filter, hne]
    · simp [toggleGenre, hg, List.mem_append, hne]

/-- Witness for C4: toggling a fresh genre on the fixture state adds it,
leaves an unrelated genre's membership unchanged, and clears exclusions. -/
theorem filterMutations_witness :
    ((defaultTime ∈ (toggleGenre stateXY defaultTime).filters.genres) ↔
      defaultTime ∉ stateXY.filters.genres) ∧
    ((trackNameA ∈ (toggleGenre stateXY defaultTime).filters.genres) ↔
      trackNameA ∈ stateXY.filters.genres) ∧
    (toggleGenre stateXY defaultTime).excludedIds = [] := by
  have h := filterMutationsTouchOneFieldAndClearExclusions stateXY
    defaultTime defaultTime trackNameA
  exact ⟨h.2.2.2.2.2.2.1, h.2.2.2.2.2.2.2.1 (by decide), h.2.2.2.2.2.2.2.2.1⟩

end MovieSir

namespace MovieSir

/-- C5 counterexample: `resetFilters` does not clear the loading/error
status.  Starting from a state with a non-null error and `isLoading` set,
the claimed post-reset condition `isLoading = false ∧ error = null` is
false: zustand's shallow merge leaves both fields untouched because
`resetFilters` never mentions them. -/
theorem resetKeepsErrorStatus_counterexample :
    ¬((resetFilters erroredState).isLoading = false ∧
      (resetFilters erroredState).error = none) := by
  decide

/-- C5 (amended): `resetFilters` restores the filter selection to its
defaults, empties both tracks with total runtime 0, empties `excludedIds`
(and the legacy aliases), but leaves `isLoading` and `error` exactly as
they were. -/
theorem resetRestoresDefaultsButKeepsStatus (st : MovieState) :
    (resetFilters st).filters
      = { time := defaultTime, genres := [], excludeAdult := false } ∧
    (resetFilters st).trackAMovies = [] ∧
    (resetFilters st).trackATotalRuntime = 0 ∧
    (resetFilters st).trackBMovies = [] ∧
    (resetFilters st).trackBTotalRuntime = 0 ∧
    (resetFilters st).excludedIds = [] ∧
    (resetFilters st).recommendedMovies = [] ∧
    (resetFilters st).popularMovies = [] ∧
    (resetFilters st).isLoading = st.isLoading ∧
    (resetFilters st).error = st.error :=
  ⟨rfl, rfl, rfl, rfl, rfl, rfl, rfl, rfl, rfl, rfl⟩

/-- C6: after a successful `loadRecommended`, `excludedIds` holds exactly
the ids present across both tracks: every element of `excludedIds` is the
id of a current track item and conversely. -/
theorem loadSuccessExclusionsMatchTrackIds (st : MovieState)
    (r : RecommendResponseV2) (x : Int) :
    x ∈ (loadRecommended st (.ok r)).excludedIds ↔
      (x ∈ (loadRecommended st (.ok r)).trackAMovies.map Movie.id ∨
        x ∈ (loadRecommended st (.ok r)).trackBMovies.map Movie.id) := by
  simp [loadRecommended, List.mem_append, List.mem_map,
    id_convertV2MovieToMovie]

/-- C10: every listed store operation preserves the invariant that the
legacy alias fields mirror the tracks (`recommendedMovies = trackAMovies`
and `popularMovies = trackBMovies`). -/
theorem operationsPreserveAliasMirror (st : MovieState)
    (result : Except JsError RecommendResponseV2) (movieId : Int)
    (outcome : ReRecOutcome) (t g : String)
    (h : aliasInvariant st) :
    aliasInvariant (loadRecommended st result) ∧
    aliasInvariant (removeRecommendedMovie st movieId outcome).1 ∧
    aliasInvariant (removePopularMovie st movieId outcome).1 ∧
    aliasInvariant (setTime st t) ∧
    aliasInvariant (toggleGenre st g) ∧
    aliasInvariant (toggleExcludeAdult st) ∧
    aliasInvariant (resetFilters st) := by
  obtain ⟨h1, h2⟩ := h
  refine ⟨?_, ?_, ?_, ⟨h1, h2⟩, ⟨h1, h2⟩, ⟨h1, h2⟩, ⟨rfl, rfl⟩⟩
  · cases result with
    | ok r => exact ⟨rfl, rfl⟩
    | error e => exact ⟨rfl, rfl⟩
  · unfold removeRecommendedMovie
    split
    · exact ⟨h1, h2⟩
    · split
      · exact ⟨h1, h2⟩
      · split
        · exact ⟨rfl, h2⟩
        · exact ⟨h1, h2⟩
  · unfold removePopularMovie
    split
    · exact ⟨h1, h2⟩
    · split
      · exact ⟨h1, h2⟩
      · split
        · exact ⟨h1, rfl⟩
        · exact ⟨h1, h2⟩

/-- Witness for C10: starting from the fixture state (whose aliases mirror
its tracks), a load failure, a Track A replacement attempt and a reset all
leave the aliases mirroring the tracks. -/
theorem operationsPreserveAliasMirror_witness :
    aliasInvariant
      (loadRecommended stateXY (.error { code := none, status := none })) ∧
    aliasInvariant
      (removeRecommendedMovie stateXY 2 ReRecOutcome.threw).1 ∧
    aliasInvariant (resetFilters stateXY) := by
  have h := operationsPreserveAliasMirror stateXY
    (.error { code := none, status := none }) 2 ReRecOutcome.threw
    defaultTime defaultTime ⟨rfl, rfl⟩
  exact ⟨h.1, h.2.1, h.2.2.2.2.2.2⟩

end MovieSir

namespace MovieSir

/-- C8: when the removed movie is present, the re-recommendation request
carries `target_runtime` = (minutes parsed from the `"HH:MM"` filter time)
minus the runtime sum of the movies remaining in the track after removal,
along with the extended exclusion list, the track name and the current
genre/adult filters. -/
theorem replaceSendsGapTargetRuntime (st : MovieState) (movieId : Int)
    (outcome : ReRecOutcome) (t : Int)
    (hParse : parseTimeToMinutes st.filters.time = some t) :
    ((∃ i, findIndex (fun m => m.id == movieId) st.trackAMovies = some i) →
      (removeRecommendedMovie st movieId outcome).2 =
        some { target_runtime := some (t - trackRuntimeSum
                 (st.trackAMovies.filter (fun m => m.id != movieId)))
               excluded_ids := st.excludedIds ++ [movieId]
               track := trackNameA
               genres := st.filters.genres
               exclude_adult := st.filters.excludeAdult }) ∧
    ((∃ i, findIndex (fun m => m.id == movieId) st.trackBMovies = some i) →
      (removePopularMovie st movieId outcome).2 =
        some { target_runtime := some (t - trackRuntimeSum
                 (st.trackBMovies.filter (fun m => m.id != movieId)))
               excluded_ids := st.excludedIds ++ [movieId]
               track := trackNameB
               genres := st.filters.genres
               exclude_adult := st.filters.excludeAdult }) := by
  constructor
  · rintro ⟨i, hi⟩
    cases outcome with
    | threw => simp [removeRecommendedMovie, hi, hParse]
    | responded resp =>
      cases hs : resp.success <;> cases hm : resp.movie <;>
        simp [removeRecommendedMovie, hi, hParse, hs, hm]
  · rintro ⟨i, hi⟩
    cases outcome with
    | threw => simp [removePopularMovie, hi, hParse]
    | responded resp =>
      cases hs : resp.success <;> cases hm : resp.movie <;>
        simp [removePopularMovie, hi, hParse, hs, hm]

/-- Witness for C8, the spec's worked scenario: Track A `[X(90), Y(30)]`,
budget `"02:30"` = 150 minutes; removing `Y` leaves 90 minutes, so the
request carries `target_runtime = 150 - 90 = 60`; on Track B removing `Z`
leaves 0 minutes, giving `target_runtime = 150`. -/
theorem replaceSendsGapTargetRuntime_witness :
    (removeRecommendedMovie stateXY 2 ReRecOutcome.threw).2 =
      some { target_runtime := some 60
             excluded_ids := [1, 2, 3, 2]
             track := trackNameA
             genres := []
             exclude_adult := false } ∧
    (removePopularMovie stateXY 3 ReRecOutcome.threw).2 =
      some { target_runtime := some 150
             excluded_ids := [1, 2, 3, 3]
             track := trackNameB
             genres := []
             exclude_adult := false } := by
  have hA := (replaceSendsGapTargetRuntime stateXY 2 ReRecOutcome.threw 150
    (by decide)).1 ⟨1, by decide⟩
  have hB := (replaceSendsGapTargetRuntime stateXY 3 ReRecOutcome.threw 150
    (by decide)).2 ⟨0, by decide⟩
  exact ⟨by rw [hA]; decide, by rw [hB]; decide⟩

/-- C1 counterexample: in the fixture state Track A is `[X(90), Y(30)]`
and `Y` (id 2) is present, yet after a `{success:false}` server response
the track still has 2 elements, not the claimed post-removal length 1 —
the store only commits a `set` in the success branch, so on failure the
removal never happens. -/
theorem replaceFailureKeepsItem_counterexample :
    (∃ i, findIndex (fun m => m.id == 2) stateXY.trackAMovies = some i) ∧
    failedReRec (.responded failResponse) ∧
    ¬((removeRecommendedMovie stateXY 2
          (.responded failResponse)).1.trackAMovies.length
        = stateXY.trackAMovies.length - 1) :=
  ⟨⟨1, by decide⟩, Or.inl rfl, by decide⟩

/-- C1 (amended): when the movie is present and the re-recommendation
fails (`{success:false}`, a success response without a movie, or a thrown
transport error), the entire store state — item included — is left
unchanged: the removal is never committed because the only `set` call
sits in the success branch.  The network request is still sent. -/
theorem replaceFailureLeavesStateUnchanged (st : MovieState)
    (movieId : Int) (outcome : ReRecOutcome) (hFail : failedReRec outcome) :
    ((∃ i, findIndex (fun m => m.id == movieId) st.trackAMovies = some i) →
      (removeRecommendedMovie st movieId outcome).1 = st ∧
      (removeRecommendedMovie st movieId outcome).2.isSome = true) ∧
    ((∃ i, findIndex (fun m => m.id == movieId) st.trackBMovies = some i) →
      (removePopularMovie st movieId outcome).1 = st ∧
      (removePopularMovie st movieId outcome).2.isSome = true) := by
  constructor
  · rintro ⟨i, hi⟩
    cases outcome with
    | threw => simp [removeRecommendedMovie, hi]
    | responded resp =>
      cases hs : resp.success with
      | false =>
        cases hm : resp.movie <;> simp [removeRecommendedMovie, hi, hs, hm]
      | true =>
        cases hm : resp.movie with
        | none => simp [removeRecommendedMovie, hi, hs, hm]
        | some mv =>
          exfalso
          simp [failedReRec, hs, hm] at hFail
  · rintro ⟨i, hi⟩
    cases outcome with
    | threw => simp [removePopularMovie, hi]
    | responded resp =>
      cases hs : resp.success with
      | false =>
        cases hm : resp.movie <;> simp [removePopularMovie, hi, hs, hm]
      | true =>
        cases hm : resp.movie with
        | none => simp [removePopularMovie, hi, hs, hm]
        | some mv =>
          exfalso
          simp [failedReRec, hs, hm] at hFail

/-- Witness for C1: a concrete `{success:false}` response leaves the
fixture state untouched on both tracks. -/
theorem replaceFailureLeavesStateUnchanged_witness :
    (removeRecommendedMovie stateXY 2 (.responded failResponse)).1
      = stateXY ∧
    (removePopularMovie stateXY 3 (.responded failResponse)).1
      = stateXY :=
  ⟨((replaceFailureLeavesStateUnchanged stateXY 2 (.responded failResponse)
      (Or.inl rfl)).1 ⟨1, by decide⟩).1,
   ((replaceFailureLeavesStateUnchanged stateXY 3 (.responded failResponse)
      (Or.inl rfl)).2 ⟨0, by decide⟩).1⟩

end MovieSir

namespace MovieSir

/-- C7 counterexample: with id 1 present at index 0 of a two-element
Track A whose elements share that id, a successful replacement leaves a
track of length 1, not the claimed unchanged length 2 — the `filter`
removes every copy of the id while only one replacement is inserted. -/
theorem replaceSuccessKeepsLength_counterexample :
    findIndex (fun m => m.id == 1) dupIdState.trackAMovies = some 0 ∧
    ¬((removeRecommendedMovie dupIdState 1
          (.responded successResponse9)).1.trackAMovies.length
        = dupIdState.trackAMovies.length) :=
  ⟨by decide, by decide⟩

/-- C7 (amended): when `movieId` occurs exactly once in the track — at
index `i`, the length of the prefix — a successful replacement keeps the
track's length, puts the converted replacement exactly at index `i` with
all other items in place, and grows `excludedIds` by exactly the removed
id followed by the new id.  (With a duplicated id the `filter` drops every
copy, so uniqueness is necessary.) -/
theorem replaceSuccessPreservesPosition (st : MovieState)
    (movieId : Int) (pre post : List Movie) (x : Movie)
    (resp : ReRecommendResponse) (mv : RecommendedMovieV2)
    (hx : x.id = movieId)
    (hpre : ∀ m ∈ pre, m.id ≠ movieId)
    (hpost : ∀ m ∈ post, m.id ≠ movieId)
    (hs : resp.success = true) (hm : resp.movie = some mv) :
    (st.trackAMovies = pre ++ x :: post →
      (removeRecommendedMovie st movieId (.responded resp)).1.trackAMovies
        = pre ++ convertV2MovieToMovie mv :: post ∧
      (removeRecommendedMovie st movieId
          (.responded resp)).1.trackAMovies.length
        = st.trackAMovies.length ∧
      (removeRecommendedMovie st movieId
          (.responded resp)).1.trackAMovies.get? pre.length
        = some (convertV2MovieToMovie mv) ∧
      (removeRecommendedMovie st movieId (.responded resp)).1.excludedIds
        = st.excludedIds ++ [movieId, (convertV2MovieToMovie mv).id]) ∧
    (st.trackBMovies = pre ++ x :: post →
      (removePopularMovie st movieId (.responded resp)).1.trackBMovies
        = pre ++ convertV2MovieToMovie mv :: post ∧
      (removePopularMovie st movieId
          (.responded resp)).1.trackBMovies.length
        = st.trackBMovies.length ∧
      (removePopularMovie st movieId
          (.responded resp)).1.trackBMovies.get? pre.length
        = some (convertV2MovieToMovie mv) ∧
      (removePopularMovie st movieId (.responded resp)).1.excludedIds
        = st.excludedIds ++ [movieId, (convertV2MovieToMovie mv).id]) := by
  constructor
  · intro hA
    have hfA : findIndex (fun m => m.id == movieId) st.trackAMovies
        = some pre.length := by
      rw [hA]
      exact findIndex_append_cons _ _ _ _
        (fun a ha => beq_eq_false_iff_ne.mpr (hpre a ha)) (by simp [hx])
    have hfiltA : st.trackAMovies.filter (fun m => m.id != movieId)
        = pre ++ post := by
      rw [hA]
      exact filter_append_cons_eq _ _ _ _
        (fun a ha => by simp [hpre a ha])
        (fun a ha => by simp [hpost a ha]) (by simp [hx])
    have htrackA :
        (removeRecommendedMovie st movieId (.responded resp)).1.trackAMovies
          = pre ++ convertV2MovieToMovie mv :: post := by
      simp only [removeRecommendedMovie, hfA, hs, hm, hfiltA]
      exact spliceInsert_length_append pre post (convertV2MovieToMovie mv)
    refine ⟨htrackA, ?_, ?_, ?_⟩
    · rw [htrackA, hA]
      simp
    · rw [htrackA]
      exact get?_append_cons pre post (convertV2MovieToMovie mv)
    · simp only [removeRecommendedMovie, hfA, hs, hm]
      simp [List.append_assoc]
  · intro hB
    have hfB : findIndex (fun m => m.id == movieId) st.trackBMovies
        = some pre.length := by
      rw [hB]
      exact findIndex_append_cons _ _ _ _
        (fun a ha => beq_eq_false_iff_ne.mpr (hpre a ha)) (by simp [hx])
    have hfiltB : st.trackBMovies.filter (fun m => m.id != movieId)
        = pre ++ post := by
      rw [hB]
      exact filter_append_cons_eq _ _ _ _
        (fun a ha => by simp [hpre a ha])
        (fun a ha => by simp [hpost a ha]) (by simp [hx])
    have htrackB :
        (removePopularMovie st movieId (.responded resp)).1.trackBMovies
          = pre ++ convertV2MovieToMovie mv :: post := by
      simp only [removePopularMovie, hfB, hs, hm, hfiltB]
      exact spliceInsert_length_append pre post (convertV2MovieToMovie mv)
    refine ⟨htrackB, ?_, ?_, ?_⟩
    · rw [htrackB, hB]
      simp
    · rw [htrackB]
      exact get?_append_cons pre post (convertV2MovieToMovie mv)
    · simp only [removePopularMovie, hfB, hs, hm]
      simp [List.append_assoc]

/-- Witness for C7: replacing `Y` (id 2, index 1) in the fixture Track A
and `Z` (id 3, index 0) in Track B with the returned movie 9 keeps both
track shapes and appends exactly the two ids to the exclusions. -/
theorem replaceSuccessPreservesPosition_witness :
    (removeRecommendedMovie stateXY 2
        (.responded successResponse9)).1.trackAMovies
      = [movieX] ++ convertV2MovieToMovie (mkTestV2Movie 9 55) :: [] ∧
    (removeRecommendedMovie stateXY 2
        (.responded successResponse9)).1.excludedIds
      = [1, 2, 3] ++ [2, 9] ∧
    (removePopularMovie stateXY 3
        (.responded successResponse9)).1.trackBMovies
      = [] ++ convertV2MovieToMovie (mkTestV2Movie 9 55) :: [] :=
  have hA := (replaceSuccessPreservesPosition stateXY 2 [movieX] [] movieY
    successResponse9 (mkTestV2Movie 9 55)
    rfl (by decide) (by decide) rfl rfl).1 rfl
  have hB := (replaceSuccessPreservesPosition stateXY 3 [] [] movieZ
    successResponse9 (mkTestV2Movie 9 55)
    rfl (by decide) (by decide) rfl rfl).2 rfl
  ⟨hA.1, hA.2.2.2, hB.1⟩

end MovieSir

namespace MovieSir

/-- C3 counterexample: `loadRecommended` stores the server-reported
`total_runtime` fields verbatim instead of recomputing them, so a
successful load whose reported total (999) differs from the returned
movies' runtime sum (90) leaves `trackATotalRuntime` different from the
sum of the track's items — the claimed invariant fails for this server
response. -/
theorem loadStoresServerTotalVerbatim_counterexample :
    ¬ runtimeInvariant (loadRecommended initialState (.ok inconsistentResponse)) :=
  fun h => absurd h.1 (by decide)

/-- C3 (amended): the runtime-sum invariant is preserved by the filter
mutations, established by `resetFilters`, preserved by both replace
operations under every outcome (the success branch recomputes the total
from the remaining runtimes plus the new movie's), and established by a
successful `loadRecommended` provided the server's reported per-track
totals equal the runtime sums of the returned movies; a failed load
empties both tracks while keeping the previous totals verbatim, so the
invariant does not survive a failed load. -/
theorem runtimeTotalsMatchItems (st : MovieState) (t g : String)
    (movieId : Int) (outcome : ReRecOutcome) (r : RecommendResponseV2)
    (e : JsError) (hInv : runtimeInvariant st) :
    runtimeInvariant (setTime st t) ∧
    runtimeInvariant (toggleGenre st g) ∧
    runtimeInvariant (toggleExcludeAdult st) ∧
    runtimeInvariant (resetFilters st) ∧
    runtimeInvariant (removeRecommendedMovie st movieId outcome).1 ∧
    runtimeInvariant (removePopularMovie st movieId outcome).1 ∧
    (r.track_a.total_runtime
        = trackRuntimeSum (r.track_a.movies.map convertV2MovieToMovie) →
      r.track_b.total_runtime
        = trackRuntimeSum (r.track_b.movies.map convertV2MovieToMovie) →
      runtimeInvariant (loadRecommended st (.ok r))) ∧
    (loadRecommended st (.error e)).trackAMovies = [] ∧
    (loadRecommended st (.error e)).trackATotalRuntime
      = st.trackATotalRuntime ∧
    (loadRecommended st (.error e)).trackBTotalRuntime
      = st.trackBTotalRuntime := by
  obtain ⟨h1, h2⟩ := hInv
  refine ⟨⟨h1, h2⟩, ⟨h1, h2⟩, ⟨h1, h2⟩, ⟨rfl, rfl⟩, ?_, ?_, ?_, rfl, rfl, rfl⟩
  · cases hf : findIndex (fun m => m.id == movieId) st.trackAMovies with
    | none =>
      simp only [removeRecommendedMovie, hf]
      exact ⟨h1, h2⟩
    | some i =>
      cases outcome with
      | threw =>
        simp only [removeRecommendedMovie, hf]
        exact ⟨h1, h2⟩
      | responded resp =>
        cases hs : resp.success with
        | false =>
          cases hm : resp.movie <;>
            simp only [removeRecommendedMovie, hf, hs, hm] <;>
            exact ⟨h1, h2⟩
        | true =>
          cases hm : resp.movie with
          | none =>
            simp only [removeRecommendedMovie, hf, hs, hm]
            exact ⟨h1, h2⟩
          | some mv =>
            simp only [removeRecommendedMovie, hf, hs, hm]
            refine ⟨?_, h2⟩
            show trackRuntimeSum
                  (st.trackAMovies.filter (fun m => m.id != movieId))
                + movieRuntimeOrZero (convertV2MovieToMovie mv)
              = trackRuntimeSum (spliceInsert i (convertV2MovieToMovie mv)
                  (st.trackAMovies.filter (fun m => m.id != movieId)))
            rw [trackRuntimeSum_spliceInsert]
            omega
  · cases hf : findIndex (fun m => m.id == movieId) st.trackBMovies with
    | none =>
      simp only [removePopularMovie, hf]
      exact ⟨h1, h2⟩
    | some i =>
      cases outcome with
      | threw =>
        simp only [removePopularMovie, hf]
        exact ⟨h1, h2⟩
      | responded resp =>
        cases hs : resp.success with
        | false =>
          cases hm : resp.movie <;>
            simp only [removePopularMovie, hf, hs, hm] <;>
            exact ⟨h1, h2⟩
        | true =>
          cases hm : resp.movie with
          | none =>
            simp only [removePopularMovie, hf, hs, hm]
            exact ⟨h1, h2⟩
          | some mv =>
            simp only [removePopularMovie, hf, hs, hm]
            refine ⟨h1, ?_⟩
            show trackRuntimeSum
                  (st.trackBMovies.filter (fun m => m.id != movieId))
                + movieRuntimeOrZero (convertV2MovieToMovie mv)
              = trackRuntimeSum (spliceInsert i (convertV2MovieToMovie mv)
                  (st.trackBMovies.filter (fun m => m.id != movieId)))
            rw [trackRuntimeSum_spliceInsert]
            omega
  · intro ha hb
    exact ⟨ha, hb⟩

/-- Witness for C3: the fixture state satisfies the invariant, and both a
consistent successful load and a reset re-establish it; a Track A
replacement under a thrown call preserves it. -/
theorem runtimeTotalsMatchItems_witness :
    runtimeInvariant
      (loadRecommended stateXY
        (.ok { track_a := { movies := [mkTestV2Movie 1 90],
                            total_runtime := 90,
                            label := trackADefaultLabel }
               track_b := { movies := [], total_runtime := 0,
                            label := trackBDefaultLabel } })) ∧
    runtimeInvariant (resetFilters stateXY) ∧
    runtimeInvariant (removeRecommendedMovie stateXY 2 ReRecOutcome.threw).1 :=
  have h := runtimeTotalsMatchItems stateXY defaultTime defaultTime 2
    ReRecOutcome.threw
    { track_a := { movies := [mkTestV2Movie 1 90], total_runtime := 90,
                   label := trackADefaultLabel }
      track_b := { movies := [], total_runtime := 0,
                   label := trackBDefaultLabel } }
    { code := none, status := none } ⟨by decide, by decide⟩
  ⟨h.2.2.2.2.2.2.1 (by decide) (by decide), h.2.2.2.1, h.2.2.2.2.1⟩

end MovieSir
